import Mathlib

/-
  Verification of the LINE webhook ingestion and dispatch pipeline
  (app/routers/line.py, app/services/line_service.py).

  The Python code is shallowly embedded:
  * JSON values (results of json.loads) are an inductive type; Python dict
    accessor semantics (AttributeError on non-dicts, .get defaults,
    truthiness) are modelled explicitly.
  * The signature check is embedded with a full executable HMAC-SHA256 and
    base64 implementation over byte lists (Nat < 256).
  * The black-box collaborators (OpenAI completion, conversation store,
    outbound LINE transport) are modelled by an oracle deciding each call's
    outcome; every collaborator call is recorded in a chronological trace,
    and the conversation store is an explicit append log.
-/

namespace LineBot

/-- JSON values, as produced by Python's `json.loads`. Numbers are modelled
as integers; no behaviour in the webhook depends on numeric values. -/
inductive Json where
  | null : Json
  | bool : Bool → Json
  | num : Int → Json
  | str : String → Json
  | arr : List Json → Json
  | obj : List (String × Json) → Json

mutual

/-- Structural (Python `==`) equality test on JSON values. -/
def Json.beq : Json → Json → Bool
  | Json.str s1, Json.str s2 => s1 == s2
  | Json.num n1, Json.num n2 => n1 == n2
  | Json.bool b1, Json.bool b2 => b1 == b2
  | Json.null, Json.null => true
  | Json.arr l1, Json.arr l2 => Json.beqList l1 l2
  | Json.obj f1, Json.obj f2 => Json.beqFields f1 f2
  | _, _ => false

def Json.beqList : List Json → List Json → Bool
  | v1 :: r1, v2 :: r2 => Json.beq v1 v2 && Json.beqList r1 r2
  | r1, r2 => r1.isEmpty && r2.isEmpty

def Json.beqFields : List (String × Json) → List (String × Json) → Bool
  | (k1, v1) :: r1, (k2, v2) :: r2 => k1 == k2 && Json.beq v1 v2 && Json.beqFields r1 r2
  | r1, r2 => r1.isEmpty && r2.isEmpty

end

/-- Exceptions that can escape the pure parsing code. -/
inductive PyErr where
  | attributeError : PyErr
  | typeError : PyErr
deriving DecidableEq

/-- Member lookup in a JSON object. `json.loads` keeps the last of duplicate
keys, so the last binding wins. -/
def lookupLast (fields : List (String × Json)) (k : String) : Option Json :=
  ((fields.filter fun p => p.1 == k).getLast?).map Prod.snd

/-- Python `d.get(k)`: `None` when the key is absent; raises AttributeError
when the receiver is not a dict. -/
def Json.get? : Json → String → Except PyErr (Option Json)
  | Json.obj fields, k => Except.ok (lookupLast fields k)
  | _, _ => Except.error PyErr.attributeError

/-- Python `d.get(k, default)`. -/
def Json.getD (j : Json) (k : String) (d : Json) : Except PyErr Json :=
  match j with
  | Json.obj fields => Except.ok ((lookupLast fields k).getD d)
  | _ => Except.error PyErr.attributeError

/-- Python truthiness of a JSON value. -/
def Json.truthy : Json → Bool
  | Json.null => false
  | Json.bool b => b
  | Json.num n => n != 0
  | Json.str s => s != ""
  | Json.arr xs => !xs.isEmpty
  | Json.obj fs => !fs.isEmpty

/-- Python truthiness of an optional JSON value (`None` is falsy). -/
def truthyOpt : Option Json → Bool
  | none => false
  | some j => j.truthy

/-- Python `x == s` for a string literal `s`, where `x` may be `None` or any
JSON value. -/
def optIsStr (x : Option Json) (s : String) : Bool :=
  match x with
  | some (Json.str t) => t == s
  | _ => false

/-- Python `for _ in x`: arrays yield elements, strings yield one-character
strings, dicts yield their keys; other values raise TypeError. -/
def Json.pyIter : Json → Except PyErr (List Json)
  | Json.arr xs => Except.ok xs
  | Json.str s => Except.ok (s.data.map fun c => Json.str (String.mk [c]))
  | Json.obj fs => Except.ok (fs.map fun p => Json.str p.1)
  | _ => Except.error PyErr.typeError

/-! ### SHA-256, HMAC and base64 over byte lists

`verify_signature` in `app/routers/line.py` computes
`base64.b64encode(hmac.new(secret.encode("utf-8"), body, hashlib.sha256).digest())`
and compares it to the header value with `hmac.compare_digest`. We embed the
whole computation executably; bytes are `Nat` values below 256 and 32-bit
words are `Nat` values reduced modulo `2 ^ 32`. -/

/-- Truncation to a 32-bit word. -/
def w32 (n : Nat) : Nat := n % 4294967296

/-- Rotate the 32-bit word `x` right by `n` bit positions. -/
def rotr (n x : Nat) : Nat := w32 ((x >>> n) ||| (x <<< (32 - n)))

def smallSigma0 (x : Nat) : Nat := (rotr 7 x) ^^^ (rotr 18 x) ^^^ (x >>> 3)

def smallSigma1 (x : Nat) : Nat := (rotr 17 x) ^^^ (rotr 19 x) ^^^ (x >>> 10)

def bigSigma0 (x : Nat) : Nat := (rotr 2 x) ^^^ (rotr 13 x) ^^^ (rotr 22 x)

def bigSigma1 (x : Nat) : Nat := (rotr 6 x) ^^^ (rotr 11 x) ^^^ (rotr 25 x)

/-- The SHA-256 round constants (FIPS 180-4), written in decimal. -/
def shaK : List Nat :=
  [1116352408, 1899447441, 3049323471, 3921009573, 961987163, 1508970993,
   2453635748, 2870763221, 3624381080, 310598401, 607225278, 1426881987,
   1925078388, 2162078206, 2614888103, 3248222580, 3835390401, 4022224774,
   264347078, 604807628, 770255983, 1249150122, 1555081692, 1996064986,
   2554220882, 2821834349, 2952996808, 3210313671, 3336571891, 3584528711,
   113926993, 338241895, 666307205, 773529912, 1294757372, 1396182291,
   1695183700, 1986661051, 2177026350, 2456956037, 2730485921, 2820302411,
   3259730800, 3345764771, 3516065817, 3600352804, 4094571909, 275423344,
   430227734, 506948616, 659060556, 883997877, 958139571, 1322822218,
   1537002063, 1747873779, 1955562222, 2024104815, 2227730452, 2361852424,
   2428436474, 2756734187, 3204031479, 3329325298]

/-- The eight 32-bit words of the SHA-256 hash state. -/
structure Hash8 where
  a : Nat
  b : Nat
  c : Nat
  d : Nat
  e : Nat
  f : Nat
  g : Nat
  h : Nat

/-- The SHA-256 initial hash value, written in decimal. -/
def initH : Hash8 :=
  ⟨1779033703, 3144134277, 1013904242, 2773480762, 1359893119, 2600822924, 528734635, 1541459225⟩

/-- Big-endian 4-byte encoding of a 32-bit word. -/
def wordBytes (x : Nat) : List Nat :=
  [(x >>> 24) % 256, (x >>> 16) % 256, (x >>> 8) % 256, x % 256]

/-- Big-endian 8-byte encoding of a 64-bit length field. -/
def beBytes8 (n : Nat) : List Nat :=
  [(n >>> 56) % 256, (n >>> 48) % 256, (n >>> 40) % 256, (n >>> 32) % 256,
   (n >>> 24) % 256, (n >>> 16) % 256, (n >>> 8) % 256, n % 256]

/-- SHA-256 message padding: `0x80`, zeros to 56 mod 64, then the bit length. -/
def padMsg (msg : List Nat) : List Nat :=
  let L := msg.length
  let z := (120 - ((L + 1) % 64)) % 64
  msg ++ [0x80] ++ List.replicate z 0 ++ beBytes8 (L * 8)

/-- Split a byte list into 64-byte blocks. -/
def chunks64 : List Nat → List (List Nat)
  | [] => []
  | x :: xs => (x :: xs).take 64 :: chunks64 ((x :: xs).drop 64)
termination_by l => l.length
decreasing_by simp [List.length_drop]; omega

/-- Big-endian 32-bit words of a byte list. -/
def toWords : List Nat → List Nat
  | a :: b :: c :: d :: rest => (((a * 256 + b) * 256 + c) * 256 + d) :: toWords rest
  | _ => []

/-- Extension of the 16-word message schedule by `n` further words. -/
def extendSchedule (w : List Nat) : Nat → List Nat
  | 0 => w
  | n + 1 =>
    let t := w32 (smallSigma1 (w.getD (w.length - 2) 0) + w.getD (w.length - 7) 0 +
                  smallSigma0 (w.getD (w.length - 15) 0) + w.getD (w.length - 16) 0)
    extendSchedule (w ++ [t]) n

/-- One SHA-256 compression round. -/
def shaRound (s : Hash8) (ki wi : Nat) : Hash8 :=
  let ch := (s.e &&& s.f) ^^^ ((s.e ^^^ 0xffffffff) &&& s.g)
  let maj := (s.a &&& s.b) ^^^ (s.a &&& s.c) ^^^ (s.b &&& s.c)
  let t1 := w32 (s.h + bigSigma1 s.e + ch + ki + wi)
  let t2 := w32 (bigSigma0 s.a + maj)
  ⟨w32 (t1 + t2), s.a, s.b, s.c, w32 (s.d + t1), s.e, s.f, s.g⟩

/-- Compression of one 64-byte block into the hash state. -/
def compressBlock (s : Hash8) (block : List Nat) : Hash8 :=
  let w := extendSchedule (toWords block) 48
  let t := (shaK.zip w).foldl (fun st p => shaRound st p.1 p.2) s
  ⟨w32 (s.a + t.a), w32 (s.b + t.b), w32 (s.c + t.c), w32 (s.d + t.d),
   w32 (s.e + t.e), w32 (s.f + t.f), w32 (s.g + t.g), w32 (s.h + t.h)⟩

/-- SHA-256 digest (32 bytes) of a byte list. -/
def sha256 (msg : List Nat) : List Nat :=
  let s := (chunks64 (padMsg msg)).foldl compressBlock initH
  wordBytes s.a ++ wordBytes s.b ++ wordBytes s.c ++ wordBytes s.d ++
  wordBytes s.e ++ wordBytes s.f ++ wordBytes s.g ++ wordBytes s.h

/-- HMAC-SHA256 (`hmac.new(key, msg, hashlib.sha256).digest()`): block size 64,
long keys are hashed first, then padded with zeros. -/
def hmacSha256 (key msg : List Nat) : List Nat :=
  let k0 := if key.length > 64 then sha256 key else key
  let k := k0 ++ List.replicate (64 - k0.length) 0
  let ipadK := k.map fun b => b ^^^ 0x36
  let opadK := k.map fun b => b ^^^ 0x5c
  sha256 (opadK ++ sha256 (ipadK ++ msg))

/-- The base64 alphabet. -/
def b64Alphabet : String :=
  "ABCDEFGHIJKLMNOPQRSTUVWXYZabcdefghijklmnopqrstuvwxyz0123456789+/"

def b64Char (n : Nat) : Char := b64Alphabet.data.getD n '?'

/-- Standard base64 encoding of a byte list, three bytes to four characters,
with `=` padding. -/
def b64Chunks : List Nat → List Char
  | [] => []
  | [a] => [b64Char (a >>> 2), b64Char ((a % 4) <<< 4), '=', '=']
  | [a, b] => [b64Char (a >>> 2), b64Char (((a % 4) <<< 4) ||| (b >>> 4)),
               b64Char ((b % 16) <<< 2), '=']
  | a :: b :: c :: rest =>
    b64Char (a >>> 2) :: b64Char (((a % 4) <<< 4) ||| (b >>> 4)) ::
    b64Char (((b % 16) <<< 2) ||| (c >>> 6)) :: b64Char (c % 64) :: b64Chunks rest

/-- `base64.b64encode(..).decode("utf-8")`. -/
def b64encode (bs : List Nat) : String := String.mk (b64Chunks bs)

/-- UTF-8 bytes of a string (`s.encode("utf-8")`). -/
def strBytes (s : String) : List Nat := s.toUTF8.toList.map UInt8.toNat

/-- The base64 HMAC-SHA256 signature LINE sends for `body` under `secret`
(the `expected_signature` of `verify_signature`). -/
def hmacB64Signature (secret : String) (body : List Nat) : String :=
  b64encode (hmacSha256 (strBytes secret) body)

/-- `verify_signature(body, signature)` from `app/routers/line.py`, with the
module-global `LINE_CHANNEL_SECRET` made an explicit argument. Verification is
skipped (returns true) when the secret or the signature is empty/falsy;
otherwise the signature is compared to the expected base64 HMAC digest
(`hmac.compare_digest` is functionally string equality). -/
def verify_signature (secret : String) (body : List Nat) (signature : String) : Bool :=
  if secret = "" ∨ signature = "" then true
  else signature == hmacB64Signature secret body

/-! ### The webhook pipeline

`line_webhook` / `handle_line_event` from `app/routers/line.py`. The three
black-box collaborators — `app.services.openai_service.complete_once`,
`app.database.save_line_message` / `get_line_conversation`, and
`LineService.reply_message` (an HTTPS POST that raises on non-2xx after the
call is made) — are driven by an `Oracle` deciding each call's outcome. Every
collaborator call is recorded in a chronological `Effect` trace, and the
conversation store is an explicit append log of `Turn`s. -/

/-- A `{role, content}` message dict. -/
structure Msg where
  role : String
  content : Json

/-- One conversation turn in the store's append log. -/
structure Turn where
  userId : Json
  role : String
  text : Json

/-- One collaborator call, with its outcome (`ok = false` means the call
raised). A reply effect is recorded whenever `reply_message` is invoked: the
HTTP POST is issued before `raise_for_status` can raise. -/
inductive Effect where
  | getRecent (userId : Json) (limit : Nat)
  | completion (messages : List Msg) (ok : Bool)
  | append (userId : Json) (role : String) (text : Json) (ok : Bool)
  | reply (replyToken : Json) (text : Json) (ok : Bool)

def Effect.isGetRecent : Effect → Bool
  | Effect.getRecent _ _ => true
  | _ => false

def Effect.isCompletion : Effect → Bool
  | Effect.completion _ _ => true
  | _ => false

def Effect.isAppend : Effect → Bool
  | Effect.append _ _ _ _ => true
  | _ => false

def Effect.isReply : Effect → Bool
  | Effect.reply _ _ _ => true
  | _ => false

/-- A reply effect carrying the given reply token. -/
def Effect.isReplyTo (tok : Json) : Effect → Bool
  | Effect.reply t _ _ => Json.beq t tok
  | _ => false

def countGetRecent (tr : List Effect) : Nat := (tr.filter Effect.isGetRecent).length

def countCompletion (tr : List Effect) : Nat := (tr.filter Effect.isCompletion).length

def countAppend (tr : List Effect) : Nat := (tr.filter Effect.isAppend).length

def countReply (tr : List Effect) : Nat := (tr.filter Effect.isReply).length

/-- Outcomes of the black-box collaborators, indexed by how many calls of that
kind happened before: whether the nth store read succeeds, what the nth
completion call returns (`Except.error` = the collaborator raises,
`Except.ok c` = a result dict whose optional `"content"` member is `c`),
whether the nth store append succeeds, and whether the nth outbound reply
call succeeds. -/
structure Oracle where
  recentOk : Nat → Bool
  completionResult : Nat → Except Unit (Option Json)
  appendOk : Nat → Bool
  replyOk : Nat → Bool

/-- The observable state of one request's processing: the chronological call
trace and the conversation store's append log. -/
structure St where
  trace : List Effect
  store : List Turn

/-- Modelled from the spec: `app.database.get_line_conversation` is not under
`src/`; per §4.3 and §6 of the spec it "fetches up to 10 most recent turns for
userId from the conversation-store collaborator (oldest-first ordering)" as
role/content message dicts. The store is the chronological append log. -/
def get_line_conversation (store : List Turn) (userId : Json) (limit : Nat) : List Msg :=
  let turns := store.filter fun t => Json.beq t.userId userId
  (turns.drop (turns.length - limit)).map fun t => { role := t.role, content := t.text }

/-- The fixed system prompt of `handle_line_event`. -/
def systemPrompt : String :=
  "あなたは親切なAIアシスタントです。ユーザーの質問に簡潔かつ丁寧に答えてください。"

/-- The default used when the completion result has no `"content"` member. -/
def noContentFallback : String := "申し訳ございません。応答を生成できませんでした。"

/-- The fixed apology sent on the error path of `handle_line_event`. -/
def errorApology : String :=
  "申し訳ございません。エラーが発生しました。しばらくしてからもう一度お試しください。"

/-- The message list built by `handle_line_event`: the system prompt, the
conversation history, then the new user message. -/
def mkMessages (history : List Msg) (userText : Json) : List Msg :=
  { role := "system", content := Json.str systemPrompt } ::
    history ++ [{ role := "user", content := userText }]

/-- Result of the event filtering prelude of `handle_line_event`. -/
inductive Classified where
  | ignored : Classified
  | actionable (userId replyToken text : Json) : Classified

/-- Lines 76-91 of `handle_line_event`: drop non-message events, non-text
messages, and events missing a truthy userId, replyToken or text; these checks
run outside the `try` block, so a malformed shape (e.g. a non-dict `message`
member) raises. -/
def classify_event (event : Json) : Except PyErr Classified :=
  match event.get? "type" with
  | Except.error e => Except.error e
  | Except.ok eventType =>
    if !optIsStr eventType "message" then Except.ok Classified.ignored
    else
      match event.getD "message" (Json.obj []) with
      | Except.error e => Except.error e
      | Except.ok msg =>
        match msg.get? "type" with
        | Except.error e => Except.error e
        | Except.ok messageType =>
          if !optIsStr messageType "text" then Except.ok Classified.ignored
          else
            match event.getD "source" (Json.obj []) with
            | Except.error e => Except.error e
            | Except.ok src =>
              match src.get? "userId" with
              | Except.error e => Except.error e
              | Except.ok userId =>
                match event.get? "replyToken" with
                | Except.error e => Except.error e
                | Except.ok replyToken =>
                  match msg.getD "text" (Json.str "") with
                  | Except.error e => Except.error e
                  | Except.ok userMessage =>
                    if !truthyOpt userId || !truthyOpt replyToken || !userMessage.truthy then
                      Except.ok Classified.ignored
                    else
                      Except.ok (Classified.actionable (userId.getD Json.null)
                        (replyToken.getD Json.null) userMessage)

/-- The `try:` block of `handle_line_event` (history fetch, completion call,
turn-pair persistence, reply delivery), returning whether it completed without
raising. Store appends only extend the log when they succeed. -/
def try_body (o : Oracle) (userId replyToken text : Json) (st : St) : Bool × St :=
  let rOk := o.recentOk (countGetRecent st.trace)
  let st1 : St := { st with trace := st.trace ++ [Effect.getRecent userId 10] }
  if !rOk then (false, st1) else
  let history := get_line_conversation st1.store userId 10
  let messages := mkMessages history text
  let cRes := o.completionResult (countCompletion st1.trace)
  let st2 : St := { st1 with trace := st1.trace ++ [Effect.completion messages cRes.toBool] }
  match cRes with
  | Except.error _ => (false, st2)
  | Except.ok content =>
    let aiResponse := content.getD (Json.str noContentFallback)
    let a1 := o.appendOk (countAppend st2.trace)
    let st3 : St := { trace := st2.trace ++ [Effect.append userId "user" text a1],
                      store := if a1 then st2.store ++ [⟨userId, "user", text⟩] else st2.store }
    if !a1 then (false, st3) else
    let a2 := o.appendOk (countAppend st3.trace)
    let st4 : St := { trace := st3.trace ++ [Effect.append userId "assistant" aiResponse a2],
                      store := if a2 then st3.store ++ [⟨userId, "assistant", aiResponse⟩]
                               else st3.store }
    if !a2 then (false, st4) else
    let rOk2 := o.replyOk (countReply st4.trace)
    let st5 : St := { st4 with trace := st4.trace ++ [Effect.reply replyToken aiResponse rOk2] }
    (rOk2, st5)

/-- The `try`/`except` of `handle_line_event` around the dispatch path: on any
failure, exactly one fallback reply with the fixed apology and the same
replyToken; a failure of the fallback itself is swallowed. -/
def dispatch (o : Oracle) (userId replyToken text : Json) (st : St) : St :=
  match try_body o userId replyToken text st with
  | (true, st') => st'
  | (false, st') =>
    { st' with
      trace := st'.trace ++
        [Effect.reply replyToken (Json.str errorApology) (o.replyOk (countReply st'.trace))] }

/-- `handle_line_event(event)`: filter, then dispatch. Errors of the filtering
prelude escape (they are outside the `try`); the dispatch path never raises. -/
def handle_line_event (o : Oracle) (event : Json) (st : St) : Except PyErr Unit × St :=
  match classify_event event with
  | Except.error e => (Except.error e, st)
  | Except.ok Classified.ignored => (Except.ok (), st)
  | Except.ok (Classified.actionable u t x) => (Except.ok (), dispatch o u t x st)

/-- `for event in data.get("events", []): await handle_line_event(event)` —
strictly sequential; an escaping exception aborts the loop. -/
def process_events (o : Oracle) (events : List Json) (st : St) : Except PyErr Unit × St :=
  match events with
  | [] => (Except.ok (), st)
  | e :: rest =>
    match handle_line_event o e st with
    | (Except.error err, st') => (Except.error err, st')
    | (Except.ok _, st') => process_events o rest st'

/-- Response bodies the endpoint can produce. -/
inductive RespBody where
  | statusOk : RespBody
  | invalidSignature : RespBody
  | invalidJson : RespBody
  | internalError : RespBody
deriving DecidableEq

structure HttpResponse where
  status : Nat
  body : RespBody
deriving DecidableEq

/-- The gate `if x_line_signature and not verify_signature(body, x_line_signature)`:
an absent or empty header skips the check entirely. -/
def signature_rejected (secret : String) (body : List Nat) (xsig : Option String) : Bool :=
  match xsig with
  | none => false
  | some s => s != "" && !(verify_signature secret body s)

/-- `line_webhook` after the signature gate: JSON parsing (a failure is a 400),
then the event loop; an exception escaping the loop or the `events` access
becomes FastAPI's 500 Internal Server Error. -/
def webhook_after_gate (o : Oracle) (data? : Option Json) (st : St) : HttpResponse × St :=
  match data? with
  | none => (⟨400, RespBody.invalidJson⟩, st)
  | some data =>
    match data.getD "events" (Json.arr []) with
    | Except.error _ => (⟨500, RespBody.internalError⟩, st)
    | Except.ok eventsVal =>
      match eventsVal.pyIter with
      | Except.error _ => (⟨500, RespBody.internalError⟩, st)
      | Except.ok events =>
        match process_events o events st with
        | (Except.ok _, st') => (⟨200, RespBody.statusOk⟩, st')
        | (Except.error _, st') => (⟨500, RespBody.internalError⟩, st')

/-- `line_webhook(request, x_line_signature)`: signature gate, then JSON parse
and event dispatch. `loads` stands for the stdlib `json.loads`, a black-box
partial decoder from the raw bytes; the raw body and the parsed value are
related only through it. -/
def line_webhook (o : Oracle) (secret : String) (loads : List Nat → Option Json)
    (body : List Nat) (xsig : Option String) (st : St) : HttpResponse × St :=
  if signature_rejected secret body xsig then (⟨400, RespBody.invalidSignature⟩, st)
  else webhook_after_gate o (loads body) st

/-- A platform event in the data-model sense of §3 of the spec: the five
relevant fields, each a string or absent (absent is encoded as JSON null,
which behaves identically to a missing key in every accessor the handler
uses). -/
structure LineEvent where
  type : Option String
  messageType : Option String
  messageText : Option String
  userId : Option String
  replyToken : Option String

def optStrJson : Option String → Json
  | none => Json.null
  | some s => Json.str s

/-- The JSON rendering of a data-model event. -/
def LineEvent.toJson (e : LineEvent) : Json :=
  Json.obj [("type", optStrJson e.type), ("replyToken", optStrJson e.replyToken),
            ("source", Json.obj [("userId", optStrJson e.userId)]),
            ("message", Json.obj [("type", optStrJson e.messageType),
                                  ("text", optStrJson e.messageText)])]

/-! ### Concrete instances used by witnesses and counterexamples -/

/-- The empty initial state of a request. -/
def st0 : St := ⟨[], []⟩

/-- An oracle on which every collaborator call succeeds. -/
def trivialOracle : Oracle :=
  ⟨fun _ => true, fun _ => Except.ok (some (Json.str "answer")), fun _ => true, fun _ => true⟩

/-- An oracle whose first outbound reply call fails (non-2xx) and whose later
reply calls succeed. -/
def failFirstReplyOracle : Oracle :=
  ⟨fun _ => true, fun _ => Except.ok (some (Json.str "answer")), fun _ => true, fun n => n != 0⟩

/-- An oracle whose completion collaborator always raises. -/
def failCompletionOracle : Oracle :=
  ⟨fun _ => true, fun _ => Except.error (), fun _ => true, fun _ => true⟩

/-- An oracle on which only the first store append succeeds. -/
def failSecondAppendOracle : Oracle :=
  ⟨fun _ => true, fun _ => Except.ok (some (Json.str "answer")), fun n => n == 0, fun _ => true⟩

/-- A well-formed actionable text-message event. -/
def sampleEvent : Json :=
  Json.obj [("type", Json.str "message"), ("replyToken", Json.str "T1"),
            ("source", Json.obj [("userId", Json.str "U1")]),
            ("message", Json.obj [("type", Json.str "text"), ("text", Json.str "hello")])]

/-- An envelope holding exactly `sampleEvent`. -/
def envelope1 : Json := Json.obj [("events", Json.arr [sampleEvent])]

/-- A store log holding twelve turns for user `U1`. -/
def store12 : List Turn :=
  (List.range 12).map fun i => ⟨Json.str "U1", "user", Json.num i⟩

/-! ### Helper lemmas -/

theorem sha256_ne_nil (msg : List Nat) : sha256 msg ≠ [] := by
  simp [sha256, wordBytes]

theorem b64Chunks_ne_nil (bs : List Nat) (h : bs ≠ []) : b64Chunks bs ≠ [] := by
  match bs with
  | [] => exact absurd rfl h
  | [a] => simp [b64Chunks]
  | [a, b] => simp [b64Chunks]
  | a :: b :: c :: rest => simp [b64Chunks]

theorem b64encode_ne_empty (bs : List Nat) (h : bs ≠ []) : b64encode bs ≠ "" := by
  intro hcontra
  have hd : (b64encode bs).data = "".data := by rw [hcontra]
  simp only [b64encode] at hd
  exact b64Chunks_ne_nil bs h hd

theorem hmacB64Signature_ne_empty (secret : String) (body : List Nat) :
    hmacB64Signature secret body ≠ "" :=
  b64encode_ne_empty _ (sha256_ne_nil _)

theorem verify_correct (secret : String) (body : List Nat) (h : secret ≠ "") :
    verify_signature secret body (hmacB64Signature secret body) = true := by
  simp [verify_signature, h, hmacB64Signature_ne_empty secret body]

theorem verify_tampered (secret : String) (body : List Nat) (h : secret ≠ "") :
    verify_signature secret body (hmacB64Signature secret body ++ "x") = false := by
  have hx : "x".length = 1 := rfl
  have hne : hmacB64Signature secret body ++ "x" ≠ "" := by
    intro hcontra
    have := congrArg String.length hcontra
    simp [String.length_append, hx] at this
  have hneq : hmacB64Signature secret body ++ "x" ≠ hmacB64Signature secret body := by
    intro hcontra
    have := congrArg String.length hcontra
    simp [String.length_append, hx] at this
  simp [verify_signature, h, hne, hneq]

theorem verify_false_nonempty (secret : String) (body : List Nat) (s : String)
    (h : verify_signature secret body s = false) : secret ≠ "" ∧ s ≠ "" := by
  by_contra hcontra
  rw [not_and_or] at hcontra
  rcases hcontra with h1 | h2
  · rw [not_ne_iff] at h1
    simp [verify_signature, h1] at h
  · rw [not_ne_iff] at h2
    simp [verify_signature, h2] at h

/-- C3 (counterexample): the claim quantifies over every secret, but with the
empty (unconfigured) secret the verifier skips verification and accepts even
the tampered signature `hmac_b64(B,S) + "x"`, instead of returning false as
claimed. -/
theorem C3_counterexample_empty_secret :
    verify_signature "" [] (hmacB64Signature "" [] ++ "x") = true := by
  simp [verify_signature]

/-- C3 (amended): for every body `B` and every non-empty secret `S`,
`verify(B, hmac_b64(B,S), S)` returns true and `verify(B, hmac_b64(B,S)+"x", S)`
returns false. -/
theorem C3_verify_roundtrip (body : List Nat) (secret : String) (h : secret ≠ "") :
    verify_signature secret body (hmacB64Signature secret body) = true ∧
    verify_signature secret body (hmacB64Signature secret body ++ "x") = false :=
  ⟨verify_correct secret body h, verify_tampered secret body h⟩

/-- C3 (witness): the amended claim instantiated at body `[1, 2]` and
secret `"k"`. -/
theorem C3_verify_roundtrip_witness :
    ("k" : String) ≠ "" ∧
    (verify_signature "k" [1, 2] (hmacB64Signature "k" [1, 2]) = true ∧
     verify_signature "k" [1, 2] (hmacB64Signature "k" [1, 2] ++ "x") = false) :=
  ⟨by decide, C3_verify_roundtrip [1, 2] "k" (by decide)⟩

/-- C4: when the channel secret is configured and the request carries a
signature header that does not verify against the body, the webhook responds
with HTTP 400 (Invalid signature) and the state is unchanged: no store,
completion, or transport call occurs for any event in the body. -/
theorem C4_invalid_signature_rejected (o : Oracle) (secret : String)
    (loads : List Nat → Option Json) (body : List Nat) (s : String) (st : St)
    (_hsecret : secret ≠ "") (hver : verify_signature secret body s = false) :
    line_webhook o secret loads body (some s) st = (⟨400, RespBody.invalidSignature⟩, st) := by
  have hs : s ≠ "" := (verify_false_nonempty secret body s hver).2
  simp [line_webhook, signature_rejected, hver, hs]

/-- C4 (witness): a request with secret `"k"` and the tampered signature
`hmac_b64(body) + "x"` is rejected with 400 and no side effects. -/
theorem C4_invalid_signature_rejected_witness :
    ("k" : String) ≠ "" ∧ verify_signature "k" [] (hmacB64Signature "k" [] ++ "x") = false ∧
    line_webhook trivialOracle "k" (fun _ => some envelope1) []
      (some (hmacB64Signature "k" [] ++ "x")) st0 = (⟨400, RespBody.invalidSignature⟩, st0) :=
  ⟨by decide, verify_tampered "k" [] (by decide),
   C4_invalid_signature_rejected trivialOracle "k" (fun _ => some envelope1) [] _ st0
     (by decide) (verify_tampered "k" [] (by decide))⟩

/-- C8: whenever the configured secret is empty or the signature header is
absent, verification returns true (is skipped) and the request proceeds to
parsing and dispatch unchanged. -/
theorem C8_verification_skipped (o : Oracle) (secret : String)
    (loads : List Nat → Option Json) (body : List Nat) (xsig : Option String) (st : St)
    (h : secret = "" ∨ xsig = none) :
    (∀ s, xsig = some s → verify_signature secret body s = true) ∧
    line_webhook o secret loads body xsig st = webhook_after_gate o (loads body) st := by
  rcases h with h | h
  · subst h
    constructor
    · intro s _
      simp [verify_signature]
    · simp [line_webhook, signature_rejected]
      cases xsig with
      | none => simp
      | some s => simp [verify_signature]
  · subst h
    refine ⟨fun s hs => ?_, ?_⟩
    · cases hs
    · simp [line_webhook, signature_rejected]

/-- C8 (witness): with an empty secret, an arbitrary signature header value
`"AAA"` is accepted and the request is parsed and dispatched. -/
theorem C8_verification_skipped_witness :
    (("" : String) = "" ∨ (some "AAA" : Option String) = none) ∧
    ((∀ s, (some "AAA" : Option String) = some s → verify_signature "" [] s = true) ∧
     line_webhook trivialOracle "" (fun _ => some envelope1) [] (some "AAA") st0 =
       webhook_after_gate trivialOracle (some envelope1) st0) :=
  ⟨Or.inl rfl,
   C8_verification_skipped trivialOracle "" (fun _ => some envelope1) [] (some "AAA") st0
     (Or.inl rfl)⟩

@[simp]
theorem countGetRecent_append (a b : List Effect) :
    countGetRecent (a ++ b) = countGetRecent a + countGetRecent b := by
  simp [countGetRecent, List.filter_append]

@[simp]
theorem countCompletion_append (a b : List Effect) :
    countCompletion (a ++ b) = countCompletion a + countCompletion b := by
  simp [countCompletion, List.filter_append]

@[simp]
theorem countAppend_append (a b : List Effect) :
    countAppend (a ++ b) = countAppend a + countAppend b := by
  simp [countAppend, List.filter_append]

@[simp]
theorem countReply_append (a b : List Effect) :
    countReply (a ++ b) = countReply a + countReply b := by
  simp [countReply, List.filter_append]

@[simp]
theorem countGetRecent_nil : countGetRecent [] = 0 := rfl

@[simp]
theorem countCompletion_nil : countCompletion [] = 0 := rfl

@[simp]
theorem countAppend_nil : countAppend [] = 0 := rfl

@[simp]
theorem countReply_nil : countReply [] = 0 := rfl

@[simp]
theorem countGetRecent_cons (e : Effect) (tr : List Effect) :
    countGetRecent (e :: tr) =
      (match e with | Effect.getRecent _ _ => 1 | _ => 0) + countGetRecent tr := by
  cases e <;> simp [countGetRecent, List.filter, Effect.isGetRecent, Nat.add_comm]

@[simp]
theorem countCompletion_cons (e : Effect) (tr : List Effect) :
    countCompletion (e :: tr) =
      (match e with | Effect.completion _ _ => 1 | _ => 0) + countCompletion tr := by
  cases e <;> simp [countCompletion, List.filter, Effect.isCompletion, Nat.add_comm]

@[simp]
theorem countAppend_cons (e : Effect) (tr : List Effect) :
    countAppend (e :: tr) =
      (match e with | Effect.append _ _ _ _ => 1 | _ => 0) + countAppend tr := by
  cases e <;> simp [countAppend, List.filter, Effect.isAppend, Nat.add_comm]

@[simp]
theorem countReply_cons (e : Effect) (tr : List Effect) :
    countReply (e :: tr) =
      (match e with | Effect.reply _ _ _ => 1 | _ => 0) + countReply tr := by
  cases e <;> simp [countReply, List.filter, Effect.isReply, Nat.add_comm]

theorem try_body_recent_fail (o : Oracle) (u t x : Json) (st : St)
    (h : o.recentOk (countGetRecent st.trace) = false) :
    try_body o u t x st = (false, { st with trace := st.trace ++ [Effect.getRecent u 10] }) := by
  simp [try_body, h]

theorem try_body_completion_fail (o : Oracle) (u t x : Json) (st : St)
    (h1 : o.recentOk (countGetRecent st.trace) = true)
    (h2 : o.completionResult (countCompletion st.trace) = Except.error ()) :
    try_body o u t x st = (false,
      { st with trace := st.trace ++ [Effect.getRecent u 10,
          Effect.completion (mkMessages (get_line_conversation st.store u 10) x) false] }) := by
  simp [try_body, h1, h2, Except.toBool, Except.isOk]

theorem try_body_append1_fail (o : Oracle) (u t x : Json) (st : St) (c : Option Json)
    (h1 : o.recentOk (countGetRecent st.trace) = true)
    (h2 : o.completionResult (countCompletion st.trace) = Except.ok c)
    (h3 : o.appendOk (countAppend st.trace) = false) :
    try_body o u t x st = (false,
      { trace := st.trace ++ [Effect.getRecent u 10,
          Effect.completion (mkMessages (get_line_conversation st.store u 10) x) true,
          Effect.append u "user" x false],
        store := st.store }) := by
  simp [try_body, h1, h2, h3, Except.toBool, Except.isOk]

theorem try_body_append2_fail (o : Oracle) (u t x : Json) (st : St) (c : Option Json)
    (h1 : o.recentOk (countGetRecent st.trace) = true)
    (h2 : o.completionResult (countCompletion st.trace) = Except.ok c)
    (h3 : o.appendOk (countAppend st.trace) = true)
    (h4 : o.appendOk (countAppend st.trace + 1) = false) :
    try_body o u t x st = (false,
      { trace := st.trace ++ [Effect.getRecent u 10,
          Effect.completion (mkMessages (get_line_conversation st.store u 10) x) true,
          Effect.append u "user" x true,
          Effect.append u "assistant" (c.getD (Json.str noContentFallback)) false],
        store := st.store ++ [⟨u, "user", x⟩] }) := by
  simp [try_body, h1, h2, h3, h4, Except.toBool, Except.isOk]

theorem try_body_full (o : Oracle) (u t x : Json) (st : St) (c : Option Json)
    (h1 : o.recentOk (countGetRecent st.trace) = true)
    (h2 : o.completionResult (countCompletion st.trace) = Except.ok c)
    (h3 : o.appendOk (countAppend st.trace) = true)
    (h4 : o.appendOk (countAppend st.trace + 1) = true) :
    try_body o u t x st = (o.replyOk (countReply st.trace),
      { trace := st.trace ++ [Effect.getRecent u 10,
          Effect.completion (mkMessages (get_line_conversation st.store u 10) x) true,
          Effect.append u "user" x true,
          Effect.append u "assistant" (c.getD (Json.str noContentFallback)) true,
          Effect.reply t (c.getD (Json.str noContentFallback))
            (o.replyOk (countReply st.trace))],
        store := st.store ++ [⟨u, "user", x⟩,
          ⟨u, "assistant", c.getD (Json.str noContentFallback)⟩] }) := by
  simp [try_body, h1, h2, h3, h4, Except.toBool, Except.isOk]

theorem dispatch_of_try_false (o : Oracle) (u t x : Json) (st st' : St)
    (h : try_body o u t x st = (false, st')) :
    dispatch o u t x st = { st' with trace := st'.trace ++
      [Effect.reply t (Json.str errorApology) (o.replyOk (countReply st'.trace))] } := by
  simp [dispatch, h]

theorem dispatch_of_try_true (o : Oracle) (u t x : Json) (st st' : St)
    (h : try_body o u t x st = (true, st')) : dispatch o u t x st = st' := by
  simp [dispatch, h]

/-- C5: if the completion collaborator raises while handling an actionable
event, the store receives zero new turns for that event, the transport
receives exactly one reply call carrying the fixed apology text keyed by that
event's replyToken, and the HTTP response is still 200 `{"status":"ok"}`. -/
theorem C5_completion_failure_isolated (o : Oracle) (secret : String)
    (loads : List Nat → Option Json) (body : List Nat) (xsig : Option String)
    (fields : List (String × Json)) (ev u t x : Json) (st : St)
    (hgate : signature_rejected secret body xsig = false)
    (hparse : loads body = some (Json.obj fields))
    (hevents : lookupLast fields "events" = some (Json.arr [ev]))
    (hclass : classify_event ev = Except.ok (Classified.actionable u t x))
    (hrecent : o.recentOk (countGetRecent st.trace) = true)
    (hcomp : o.completionResult (countCompletion st.trace) = Except.error ()) :
    ∃ rOk, line_webhook o secret loads body xsig st =
      (⟨200, RespBody.statusOk⟩,
       { trace := st.trace ++ [Effect.getRecent u 10,
           Effect.completion (mkMessages (get_line_conversation st.store u 10) x) false,
           Effect.reply t (Json.str errorApology) rOk],
         store := st.store }) := by
  have htry := try_body_completion_fail o u t x st hrecent hcomp
  have hdisp := dispatch_of_try_false o u t x st _ htry
  simp only [List.append_assoc, countReply_append, countReply_cons, countReply_nil] at hdisp
  refine ⟨o.replyOk (countReply st.trace), ?_⟩
  simp [line_webhook, hgate, webhook_after_gate, hparse, Json.getD, hevents, Json.pyIter,
        process_events, handle_line_event, hclass, hdisp]

/-- C5 (witness): a single actionable event whose completion call raises, on
an otherwise healthy oracle, an empty secret, and an empty initial state. -/
theorem C5_completion_failure_isolated_witness :
    signature_rejected "" [] none = false ∧
    (∃ rOk, line_webhook failCompletionOracle "" (fun _ => some envelope1) [] none st0 =
      (⟨200, RespBody.statusOk⟩,
       { trace := st0.trace ++ [Effect.getRecent (Json.str "U1") 10,
           Effect.completion
             (mkMessages (get_line_conversation st0.store (Json.str "U1") 10) (Json.str "hello"))
             false,
           Effect.reply (Json.str "T1") (Json.str errorApology) rOk],
         store := st0.store })) :=
  ⟨rfl,
   C5_completion_failure_isolated failCompletionOracle "" (fun _ => some envelope1) [] none
     [("events", Json.arr [sampleEvent])] sampleEvent (Json.str "U1") (Json.str "T1")
     (Json.str "hello") st0 rfl rfl rfl rfl rfl rfl⟩

/-- C10: persistence of a turn pair is not atomic — the user turn is appended
before the assistant turn, so when the assistant-turn append fails after the
user-turn append succeeded, the lone user turn remains persisted (no
rollback) and the fallback apology reply is attempted with the event's
replyToken. -/
theorem C10_nonatomic_turn_persistence (o : Oracle) (u t x : Json) (st : St) (c : Option Json)
    (hrecent : o.recentOk (countGetRecent st.trace) = true)
    (hcomp : o.completionResult (countCompletion st.trace) = Except.ok c)
    (happ1 : o.appendOk (countAppend st.trace) = true)
    (happ2 : o.appendOk (countAppend st.trace + 1) = false) :
    dispatch o u t x st =
      { trace := st.trace ++ [Effect.getRecent u 10,
          Effect.completion (mkMessages (get_line_conversation st.store u 10) x) true,
          Effect.append u "user" x true,
          Effect.append u "assistant" (c.getD (Json.str noContentFallback)) false,
          Effect.reply t (Json.str errorApology) (o.replyOk (countReply st.trace))],
        store := st.store ++ [⟨u, "user", x⟩] } := by
  have htry := try_body_append2_fail o u t x st c hrecent hcomp happ1 happ2
  have hdisp := dispatch_of_try_false o u t x st _ htry
  simp only [List.append_assoc, countReply_append, countReply_cons, countReply_nil] at hdisp
  simpa using hdisp

/-- C10 (witness): on an oracle where only the first store append succeeds,
the final state of handling one actionable event keeps the lone user turn and
ends with the fallback apology reply. -/
theorem C10_nonatomic_turn_persistence_witness :
    failSecondAppendOracle.recentOk (countGetRecent st0.trace) = true ∧
    failSecondAppendOracle.completionResult (countCompletion st0.trace) =
      Except.ok (some (Json.str "answer")) ∧
    failSecondAppendOracle.appendOk (countAppend st0.trace) = true ∧
    failSecondAppendOracle.appendOk (countAppend st0.trace + 1) = false ∧
    dispatch failSecondAppendOracle (Json.str "U1") (Json.str "T1") (Json.str "hello") st0 =
      { trace := st0.trace ++ [Effect.getRecent (Json.str "U1") 10,
          Effect.completion
            (mkMessages (get_line_conversation st0.store (Json.str "U1") 10) (Json.str "hello"))
            true,
          Effect.append (Json.str "U1") "user" (Json.str "hello") true,
          Effect.append (Json.str "U1") "assistant" (Json.str "answer") false,
          Effect.reply (Json.str "T1") (Json.str errorApology)
            (failSecondAppendOracle.replyOk (countReply st0.trace))],
        store := st0.store ++ [⟨Json.str "U1", "user", Json.str "hello"⟩] } :=
  ⟨rfl, rfl, rfl, rfl,
   C10_nonatomic_turn_persistence failSecondAppendOracle (Json.str "U1") (Json.str "T1")
     (Json.str "hello") st0 (some (Json.str "answer")) rfl rfl rfl rfl⟩

/-- Case analysis on `dispatch`: its trace delta contains either exactly one
reply call (carrying this event's token), or — exactly when the primary reply
call itself failed — that failed call followed by one fallback apology call
with the same token. -/
theorem dispatch_reply_structure (o : Oracle) (u t x : Json) (st : St) :
    ∃ d, (dispatch o u t x st).trace = st.trace ++ d ∧
      ((∃ txt ok, d.filter Effect.isReply = [Effect.reply t txt ok]) ∨
       (∃ txt ok, d.filter Effect.isReply =
          [Effect.reply t txt false, Effect.reply t (Json.str errorApology) ok])) := by
  cases hrec : o.recentOk (countGetRecent st.trace) with
  | false =>
    have hdisp := dispatch_of_try_false o u t x st _ (try_body_recent_fail o u t x st hrec)
    simp only [List.append_assoc, countReply_append, countReply_cons, countReply_nil,
      Nat.add_zero] at hdisp
    refine ⟨_, by rw [hdisp], Or.inl ⟨Json.str errorApology,
      o.replyOk (countReply st.trace), ?_⟩⟩
    simp [List.filter, Effect.isReply]
  | true =>
    cases hcomp : o.completionResult (countCompletion st.trace) with
    | error e =>
      cases e
      have hdisp := dispatch_of_try_false o u t x st _
        (try_body_completion_fail o u t x st hrec hcomp)
      simp only [List.append_assoc, countReply_append, countReply_cons, countReply_nil,
        Nat.add_zero] at hdisp
      refine ⟨_, by rw [hdisp], Or.inl ⟨Json.str errorApology,
        o.replyOk (countReply st.trace), ?_⟩⟩
      simp [List.filter, Effect.isReply]
    | ok c =>
      cases happ1 : o.appendOk (countAppend st.trace) with
      | false =>
        have hdisp := dispatch_of_try_false o u t x st _
          (try_body_append1_fail o u t x st c hrec hcomp happ1)
        simp only [List.append_assoc, countReply_append, countReply_cons, countReply_nil,
          Nat.add_zero] at hdisp
        refine ⟨_, by rw [hdisp], Or.inl ⟨Json.str errorApology,
          o.replyOk (countReply st.trace), ?_⟩⟩
        simp [List.filter, Effect.isReply]
      | true =>
        cases happ2 : o.appendOk (countAppend st.trace + 1) with
        | false =>
          have hdisp := dispatch_of_try_false o u t x st _
            (try_body_append2_fail o u t x st c hrec hcomp happ1 happ2)
          simp only [List.append_assoc, countReply_append, countReply_cons, countReply_nil,
            Nat.add_zero] at hdisp
          refine ⟨_, by rw [hdisp], Or.inl ⟨Json.str errorApology,
            o.replyOk (countReply st.trace), ?_⟩⟩
          simp [List.filter, Effect.isReply]
        | true =>
          have htry := try_body_full o u t x st c hrec hcomp happ1 happ2
          cases hrep : o.replyOk (countReply st.trace) with
          | true =>
            rw [hrep] at htry
            have hdisp := dispatch_of_try_true o u t x st _ htry
            refine ⟨_, by rw [hdisp], Or.inl ⟨c.getD (Json.str noContentFallback), true, ?_⟩⟩
            simp [List.filter, Effect.isReply]
          | false =>
            rw [hrep] at htry
            have hdisp := dispatch_of_try_false o u t x st _ htry
            simp only [List.append_assoc, countReply_append, countReply_cons, countReply_nil,
              Nat.add_zero] at hdisp
            refine ⟨_, by rw [hdisp], Or.inr ⟨c.getD (Json.str noContentFallback),
              o.replyOk (countReply st.trace + 1), ?_⟩⟩
            simp [List.filter, Effect.isReply]

/-- C2 (counterexample): `sampleEvent` is actionable, yet on an oracle whose
primary reply transport call fails (the POST is made, then `raise_for_status`
raises), handling the event makes two outbound reply calls with the same
replyToken `"T1"` — the failed primary and the fallback apology — refuting
"exactly one outbound reply call" and "never used in more than one call". -/
theorem C2_counterexample_double_reply :
    classify_event sampleEvent =
      Except.ok (Classified.actionable (Json.str "U1") (Json.str "T1") (Json.str "hello")) ∧
    ((line_webhook failFirstReplyOracle "" (fun _ => some envelope1) [] none st0).2.trace.filter
        (Effect.isReplyTo (Json.str "T1"))).length = 2 :=
  ⟨rfl, rfl⟩

/-- C2 (amended): for every actionable event, every outbound reply call made
during its handling carries that event's replyToken, and exactly one such
call is made — except when the primary reply transport call itself fails, in
which case exactly two are made: the failed primary and one fallback apology
reply with the same token. -/
theorem C2_reply_token_usage (o : Oracle) (u t x : Json) (st : St) :
    ∃ d, (dispatch o u t x st).trace = st.trace ++ d ∧
      ((∃ txt ok, d.filter Effect.isReply = [Effect.reply t txt ok]) ∨
       (∃ txt ok, d.filter Effect.isReply =
          [Effect.reply t txt false, Effect.reply t (Json.str errorApology) ok])) :=
  dispatch_reply_structure o u t x st

/-- C9: events of one envelope are processed strictly sequentially in list
order — processing a concatenation equals processing the first part to
completion (aborting on an escaping exception) and continuing with the second
from the resulting state — and each event's handling only appends to the
trace, never interleaving with another event's effects. -/
theorem C9_sequential_event_processing :
    (∀ (o : Oracle) (es1 es2 : List Json) (st : St),
      process_events o (es1 ++ es2) st =
        match process_events o es1 st with
        | (Except.ok _, st1) => process_events o es2 st1
        | (Except.error err, st1) => (Except.error err, st1)) ∧
    (∀ (o : Oracle) (ev : Json) (st : St),
      ∃ d, ((handle_line_event o ev st).2).trace = st.trace ++ d) := by
  constructor
  · intro o es1 es2 st
    induction es1 generalizing st with
    | nil => rfl
    | cons e es ih =>
      simp only [List.cons_append, process_events]
      rcases h : handle_line_event o e st with ⟨r, st1⟩
      cases r with
      | error err => simp
      | ok u => simp [ih st1]
  · intro o ev st
    cases hc : classify_event ev with
    | error e => exact ⟨[], by simp [handle_line_event, hc]⟩
    | ok cl =>
      cases cl with
      | ignored => exact ⟨[], by simp [handle_line_event, hc]⟩
      | actionable u t x =>
        obtain ⟨d, hd, -⟩ := dispatch_reply_structure o u t x st
        exact ⟨d, by simp [handle_line_event, hc, hd]⟩

/-- C7: for every actionable event whose history fetch succeeds, the message
list sent to the completion collaborator is exactly one system-role entry with
the fixed prompt, then the up-to-10 most recent stored turns for that userId
oldest-first (a suffix of the user's chronological turn log), then one
user-role entry with the event's text; no store write happens before the
completion call (the trace up to it is the read and the call itself). -/
theorem C7_completion_context (o : Oracle) (u t x : Json) (st : St)
    (hrecent : o.recentOk (countGetRecent st.trace) = true) :
    ∃ cOk rest,
      (dispatch o u t x st).trace = st.trace ++
        Effect.getRecent u 10 ::
        Effect.completion ({ role := "system", content := Json.str systemPrompt } ::
          get_line_conversation st.store u 10 ++
          [{ role := "user", content := x }]) cOk :: rest ∧
      (get_line_conversation st.store u 10).length ≤ 10 ∧
      ∃ older, older ++ get_line_conversation st.store u 10 =
        (st.store.filter fun tn => Json.beq tn.userId u).map fun tn => Msg.mk tn.role tn.text := by
  have hlen : (get_line_conversation st.store u 10).length ≤ 10 := by
    simp only [get_line_conversation, List.length_map, List.length_drop]
    omega
  have hsuf : ∃ older, older ++ get_line_conversation st.store u 10 =
      (st.store.filter fun tn => Json.beq tn.userId u).map fun tn => Msg.mk tn.role tn.text := by
    refine ⟨((st.store.filter fun tn => Json.beq tn.userId u).take
      ((st.store.filter fun tn => Json.beq tn.userId u).length - 10)).map
        fun tn => Msg.mk tn.role tn.text, ?_⟩
    simp only [get_line_conversation]
    rw [← List.map_append, List.take_append_drop]
  cases hcomp : o.completionResult (countCompletion st.trace) with
  | error e =>
    cases e
    have hdisp := dispatch_of_try_false o u t x st _
      (try_body_completion_fail o u t x st hrecent hcomp)
    simp only [List.append_assoc, countReply_append, countReply_cons, countReply_nil,
      Nat.add_zero, mkMessages] at hdisp
    exact ⟨false, [Effect.reply t (Json.str errorApology) (o.replyOk (countReply st.trace))],
      by rw [hdisp]; simp, hlen, hsuf⟩
  | ok c =>
    cases happ1 : o.appendOk (countAppend st.trace) with
    | false =>
      have hdisp := dispatch_of_try_false o u t x st _
        (try_body_append1_fail o u t x st c hrecent hcomp happ1)
      simp only [List.append_assoc, countReply_append, countReply_cons, countReply_nil,
        Nat.add_zero, mkMessages] at hdisp
      exact ⟨true, [Effect.append u "user" x false,
        Effect.reply t (Json.str errorApology) (o.replyOk (countReply st.trace))],
        by rw [hdisp]; simp, hlen, hsuf⟩
    | true =>
      cases happ2 : o.appendOk (countAppend st.trace + 1) with
      | false =>
        have hdisp := dispatch_of_try_false o u t x st _
          (try_body_append2_fail o u t x st c hrecent hcomp happ1 happ2)
        simp only [List.append_assoc, countReply_append, countReply_cons, countReply_nil,
          Nat.add_zero, mkMessages] at hdisp
        exact ⟨true, [Effect.append u "user" x true,
          Effect.append u "assistant" (c.getD (Json.str noContentFallback)) false,
          Effect.reply t (Json.str errorApology) (o.replyOk (countReply st.trace))],
          by rw [hdisp]; simp, hlen, hsuf⟩
      | true =>
        have htry := try_body_full o u t x st c hrecent hcomp happ1 happ2
        cases hrep : o.replyOk (countReply st.trace) with
        | true =>
          rw [hrep] at htry
          have hdisp := dispatch_of_try_true o u t x st _ htry
          simp only [mkMessages] at hdisp
          exact ⟨true, [Effect.append u "user" x true,
            Effect.append u "assistant" (c.getD (Json.str noContentFallback)) true,
            Effect.reply t (c.getD (Json.str noContentFallback)) true],
            by rw [hdisp], hlen, hsuf⟩
        | false =>
          rw [hrep] at htry
          have hdisp := dispatch_of_try_false o u t x st _ htry
          simp only [List.append_assoc, countReply_append, countReply_cons, countReply_nil,
            Nat.add_zero, mkMessages] at hdisp
          exact ⟨true, [Effect.append u "user" x true,
            Effect.append u "assistant" (c.getD (Json.str noContentFallback)) true,
            Effect.reply t (c.getD (Json.str noContentFallback)) false,
            Effect.reply t (Json.str errorApology) (o.replyOk (countReply st.trace + 1))],
            by rw [hdisp]; simp, hlen, hsuf⟩

/-- C7 (witness): with twelve stored turns for user `U1`, the completion call
of one actionable event receives the system prompt, the ten most recent
turns, and the new user text. -/
theorem C7_completion_context_witness :
    trivialOracle.recentOk (countGetRecent ((⟨[], store12⟩ : St)).trace) = true ∧
    (∃ cOk rest,
      (dispatch trivialOracle (Json.str "U1") (Json.str "T1") (Json.str "hello")
          (⟨[], store12⟩ : St)).trace = (⟨[], store12⟩ : St).trace ++
        Effect.getRecent (Json.str "U1") 10 ::
        Effect.completion ({ role := "system", content := Json.str systemPrompt } ::
          get_line_conversation (⟨[], store12⟩ : St).store (Json.str "U1") 10 ++
          [{ role := "user", content := Json.str "hello" }]) cOk :: rest ∧
      (get_line_conversation (⟨[], store12⟩ : St).store (Json.str "U1") 10).length ≤ 10 ∧
      ∃ older, older ++ get_line_conversation (⟨[], store12⟩ : St).store (Json.str "U1") 10 =
        ((⟨[], store12⟩ : St).store.filter fun tn => Json.beq tn.userId (Json.str "U1")).map
          fun tn => Msg.mk tn.role tn.text) :=
  ⟨rfl, C7_completion_context trivialOracle (Json.str "U1") (Json.str "T1") (Json.str "hello")
    ⟨[], store12⟩ rfl⟩

/-- When every event of the list is classifiable without an exception, the
event loop finishes without an escaping exception. -/
theorem process_events_ok (o : Oracle) (evs : List Json)
    (h : ∀ e ∈ evs, ∃ cl, classify_event e = Except.ok cl) (st : St) :
    ∃ st1, process_events o evs st = (Except.ok (), st1) := by
  induction evs generalizing st with
  | nil => exact ⟨st, rfl⟩
  | cons e es ih =>
    obtain ⟨cl, hcl⟩ := h e (List.mem_cons_self e es)
    have ih2 := ih fun z hz => h z (List.mem_cons_of_mem e hz)
    simp only [process_events]
    cases cl with
    | ignored =>
      simp only [handle_line_event, hcl]
      exact ih2 st
    | actionable u t x =>
      simp only [handle_line_event, hcl]
      exact ih2 (dispatch o u t x st)

/-- C1 (counterexample): the body `5` is well-formed JSON and the request
passes the (skipped) signature gate, yet the handler crashes on
`data.get("events", [])` (`AttributeError` on a non-dict) and FastAPI answers
500 Internal Server Error, not 200 `{"status":"ok"}`. -/
theorem C1_counterexample_scalar_body :
    (line_webhook trivialOracle "" (fun _ => some (Json.num 5)) [53] none st0).1 =
      ⟨500, RespBody.internalError⟩ ∧
    (line_webhook trivialOracle "" (fun _ => some (Json.num 5)) [53] none st0).1 ≠
      ⟨200, RespBody.statusOk⟩ :=
  ⟨rfl, by decide⟩

/-- C1 (amended): for every request that passes the signature gate and whose
body parses to a JSON object whose `events` member, when present, is an array
of events each classifiable by the filter without an exception, the handler
returns HTTP 200 with `{"status":"ok"}`, regardless of how many contained
events fail during processing (completion, store, and transport failures on
any oracle). -/
theorem C1_ok_for_wellformed_envelope (o : Oracle) (secret : String)
    (loads : List Nat → Option Json) (body : List Nat) (xsig : Option String) (st : St)
    (fields : List (String × Json))
    (hgate : signature_rejected secret body xsig = false)
    (hparse : loads body = some (Json.obj fields))
    (hevents : lookupLast fields "events" = none ∨
      ∃ evs, lookupLast fields "events" = some (Json.arr evs) ∧
        ∀ e ∈ evs, ∃ cl, classify_event e = Except.ok cl) :
    (line_webhook o secret loads body xsig st).1 = ⟨200, RespBody.statusOk⟩ := by
  rcases hevents with hnone | ⟨evs, harr, hcls⟩
  · simp [line_webhook, hgate, webhook_after_gate, hparse, Json.getD, hnone, Json.pyIter,
          process_events]
  · obtain ⟨st1, hp⟩ := process_events_ok o evs hcls st
    simp [line_webhook, hgate, webhook_after_gate, hparse, Json.getD, harr, Json.pyIter, hp]

/-- C1 (witness): the amended claim at a one-event envelope on an oracle whose
completion collaborator always raises — the response is still 200 ok. -/
theorem C1_ok_for_wellformed_envelope_witness :
    signature_rejected "" [] none = false ∧
    (fun _ : List Nat => some envelope1) [] = some (Json.obj [("events", Json.arr [sampleEvent])]) ∧
    (lookupLast [("events", Json.arr [sampleEvent])] "events" = none ∨
      ∃ evs, lookupLast [("events", Json.arr [sampleEvent])] "events" = some (Json.arr evs) ∧
        ∀ e ∈ evs, ∃ cl, classify_event e = Except.ok cl) ∧
    (line_webhook failCompletionOracle "" (fun _ => some envelope1) [] none st0).1 =
      ⟨200, RespBody.statusOk⟩ :=
  ⟨rfl, rfl,
   Or.inr ⟨[sampleEvent], rfl, fun e he => by
     rw [List.mem_singleton] at he
     subst he
     exact ⟨_, rfl⟩⟩,
   C1_ok_for_wellformed_envelope failCompletionOracle "" (fun _ => some envelope1) [] none st0
     [("events", Json.arr [sampleEvent])] rfl rfl
     (Or.inr ⟨[sampleEvent], rfl, fun e he => by
       rw [List.mem_singleton] at he
       subst he
       exact ⟨_, rfl⟩⟩)⟩

/-- C6: an event whose type is not "message", or whose message type is not
"text", or which lacks a non-empty userId, replyToken, or text, is silently
dropped: the handler performs no side effects (state unchanged — no store,
completion, or transport calls) and raises no error. -/
theorem C6_nonactionable_silently_dropped (o : Oracle) (st : St) (e : LineEvent)
    (h : e.type ≠ some "message" ∨ e.messageType ≠ some "text" ∨
      e.userId = none ∨ e.userId = some "" ∨
      e.replyToken = none ∨ e.replyToken = some "" ∨
      e.messageText = none ∨ e.messageText = some "") :
    handle_line_event o e.toJson st = (Except.ok (), st) := by
  rcases e with ⟨ty, mty, mtx, uid, rtk⟩
  simp only at h
  have hcl : classify_event (LineEvent.toJson ⟨ty, mty, mtx, uid, rtk⟩) =
      Except.ok Classified.ignored := by
    rcases ty with _ | s1 <;> rcases mty with _ | s2 <;> rcases mtx with _ | s3 <;>
      rcases uid with _ | s4 <;> rcases rtk with _ | s5 <;>
      simp_all [classify_event, LineEvent.toJson, Json.get?, Json.getD, lookupLast,
        optStrJson, optIsStr, truthyOpt, Json.truthy, List.filter] <;>
      tauto
  simp [handle_line_event, hcl]

/-- C6 (witness): a follow event (type ≠ "message") is dropped with the state
untouched and no exception. -/
theorem C6_nonactionable_silently_dropped_witness :
    ((some "follow" : Option String) ≠ some "message" ∨
      (none : Option String) ≠ some "text" ∨
      (none : Option String) = none ∨ (none : Option String) = some "" ∨
      (none : Option String) = none ∨ (none : Option String) = some "" ∨
      (none : Option String) = none ∨ (none : Option String) = some "") ∧
    handle_line_event trivialOracle
      (LineEvent.toJson ⟨some "follow", none, none, none, none⟩) st0 = (Except.ok (), st0) :=
  ⟨Or.inl (by decide),
   C6_nonactionable_silently_dropped trivialOracle st0 ⟨some "follow", none, none, none, none⟩
     (Or.inl (by decide))⟩

end LineBot
